import Mathlib

/-!
Shallow embedding of the wave/combat simulation core of the worm-defense
repository (src/src/phaser/scenes/GameScene.ts, with the 900x505 canvas size
coming from the game config in src/unnamed/part_000).

Entities (the worm sprite, enemies, bullets, hearts) are records; the Phaser
groups become lists of records; the scene's mutable fields become a GameState
record; each overlap callback and helper method becomes a state-transforming
function. A possible engine-level fault inside `destroy()` is modelled by a
`faulty` flag on the object, and `console.warn` output by a log of strings.
-/

namespace WormDefense

/-- Game object record: the fields of a Phaser sprite/image that the scene's
logic reads or writes (`active`, position, and the `hasHit` / `isShooter`
data entries set via `setData`). `faulty` models an object whose engine-level
`destroy()` call throws. -/
structure Obj where
  id : Nat
  active : Bool := true
  x : Int := 0
  y : Int := 0
  hasHit : Bool := false
  isShooter : Bool := false
  faulty : Bool := false
deriving Repr, DecidableEq

/-- Engine-level `obj.destroy()`: marks the object inactive, or throws when
the engine faults (modelled by the `faulty` flag). -/
def engineDestroy (o : Obj) : Except String Obj :=
  if o.faulty then Except.error "engine fault"
  else Except.ok { o with active := false }

/- Constants from GameScene.ts. -/
def INVULNERABLE_MS_AFTER_HIT : Nat := 700
def HEART_HEAL_AMOUNT : Int := 28

/- Canvas size from the Phaser game config (width 900, height 505). -/
def GAME_WIDTH : Int := 900
def GAME_HEIGHT : Int := 505

/-- The scene's mutable state: the worm sprite, the four physics groups, and
the scalar fields of GameScene. `pendingInvulnMs` records the delay of the
`delayedCall` scheduled by `loseLife`; `pendingNextWaveMs` the delay of the
`delayedCall` scheduled by the wave-advance check; `spawningActive` whether
`spawnWave` has been (re-)entered past its guard; `log` collects
`console.warn` messages, newest first. -/
structure GameState where
  worm : Obj
  enemies : List Obj := []
  playerBullets : List Obj := []
  enemyBullets : List Obj := []
  hearts : List Obj := []
  gameStarted : Bool := false
  isGameOver : Bool := false
  invulnerable : Bool := false
  score : Nat := 0
  health : Int := 100
  maxHealth : Int := 100
  lives : Int := 3
  wave : Nat := 1
  enemiesPerWave : Nat := 4
  pendingInvulnMs : Option Nat := none
  pendingNextWaveMs : Option Nat := none
  spawningActive : Bool := false
  log : List String := []
deriving Repr, DecidableEq

/-- The `safeDestroy` wrapper (GameScene.ts lines 218-234), written in the
`Except` monad so that a propagating exception would be representable: a
missing object is a no-op; the worm is blocked with a warning; an inactive
object is a no-op; otherwise the engine destroy runs and any error it throws
is caught and turned into a warning. Returns the resulting object together
with the warnings printed. -/
def safeDestroy (wormId : Nat) (obj : Option Obj) :
    Except String (Option Obj × List String) :=
  match obj with
  | none => Except.ok (none, [])
  | some o =>
    if o.id = wormId then
      Except.ok (some o, ["safeDestroy blocked: attempted to destroy player worm."])
    else if o.active = false then
      Except.ok (some o, [])
    else
      match engineDestroy o with
      | Except.ok o2 => Except.ok (some o2, [])
      | Except.error err => Except.ok (some o, ["safeDestroy error " ++ err])

/-- Effect of `safeDestroy` on a single (present) object, as used on pool
members: same branches as `safeDestroy`, returning the updated object and
the warnings. -/
def destroyOne (wormId : Nat) (o : Obj) : Obj × List String :=
  if o.id = wormId then
    (o, ["safeDestroy blocked: attempted to destroy player worm."])
  else if o.active = false then (o, [])
  else
    match engineDestroy o with
    | Except.ok o2 => (o2, [])
    | Except.error err => (o, ["safeDestroy error " ++ err])

/-- Apply `safeDestroy` to the member(s) of a pool with the given id. -/
def destroyPool (wormId : Nat) (pool : List Obj) (i : Nat) : List Obj :=
  pool.map (fun o => if o.id = i then (destroyOne wormId o).1 else o)

/-- Warnings printed while destroying the member(s) of a pool with the
given id. -/
def destroyPoolWarns (wormId : Nat) (pool : List Obj) (i : Nat) : List String :=
  (pool.filter (fun o => o.id == i)).foldr
    (fun o acc => (destroyOne wormId o).2 ++ acc) []

/-- Look an object up in a pool by id (the overlap callbacks receive the
object itself; events carry its id and the state resolves it). -/
def findIn (pool : List Obj) (i : Nat) : Option Obj :=
  pool.find? (fun o => o.id == i)

/-- Number of active members of a pool (`countActive(true)`). -/
def activeCount (pool : List Obj) : Nat :=
  (pool.filter (fun o => o.active)).length

def GameState.destroyEnemy (s : GameState) (i : Nat) : GameState :=
  { s with enemies := destroyPool s.worm.id s.enemies i
           log := destroyPoolWarns s.worm.id s.enemies i ++ s.log }

def GameState.destroyPlayerBullet (s : GameState) (i : Nat) : GameState :=
  { s with playerBullets := destroyPool s.worm.id s.playerBullets i
           log := destroyPoolWarns s.worm.id s.playerBullets i ++ s.log }

def GameState.destroyEnemyBullet (s : GameState) (i : Nat) : GameState :=
  { s with enemyBullets := destroyPool s.worm.id s.enemyBullets i
           log := destroyPoolWarns s.worm.id s.enemyBullets i ++ s.log }

def GameState.destroyHeart (s : GameState) (i : Nat) : GameState :=
  { s with hearts := destroyPool s.worm.id s.hearts i
           log := destroyPoolWarns s.worm.id s.hearts i ++ s.log }

/-- A destroy request aimed at an arbitrary id: `safeDestroy` blocks it when
the target is the worm, otherwise it reaches whichever pool holds the id. -/
def GameState.destroyId (s : GameState) (i : Nat) : GameState :=
  if i = s.worm.id then
    { s with log := "safeDestroy blocked: attempted to destroy player worm." :: s.log }
  else
    ((((s.destroyPlayerBullet i).destroyEnemyBullet i).destroyEnemy i).destroyHeart i)

/-- `Phaser.Math.Clamp(value, min, max) = Math.min(Math.max(value, min), max)`. -/
def clamp (v lo hi : Int) : Int := min (max v lo) hi

/-- `endGame` (lines 382-403): guard on `isGameOver`; set game over, stop the
run, and clear the player-bullet, enemy-bullet and heart groups (the enemies
group is not cleared here). -/
def endGame (s : GameState) : GameState :=
  if s.isGameOver then s
  else
    { s with isGameOver := true, gameStarted := false
             playerBullets := [], enemyBullets := [], hearts := [] }

/-- `loseLife` (lines 349-369): guard on `isGameOver`; become invulnerable and
schedule the 700ms expiry; decrement `lives`; on reaching 0 or below, clamp to
0 and end the game. Health is untouched. -/
def loseLife (s : GameState) : GameState :=
  if s.isGameOver then s
  else
    let s1 := { s with invulnerable := true
                       pendingInvulnMs := some INVULNERABLE_MS_AFTER_HIT }
    let s2 := { s1 with lives := s1.lives - 1 }
    if s2.lives ≤ 0 then endGame { s2 with lives := 0 } else s2

/-- `heal` (lines 371-375): guard on `isGameOver`; clamp health + amount into
[0, maxHealth]. -/
def heal (s : GameState) (amount : Int) : GameState :=
  if s.isGameOver then s
  else { s with health := clamp (s.health + amount) 0 s.maxHealth }

/-- `addScore` (lines 377-380). -/
def addScore (s : GameState) (n : Nat) : GameState :=
  { s with score := s.score + n }

/-- Player-bullet x enemy overlap (lines 103-117): both must be active; the
worm as "enemy" is refused with a warning; otherwise destroy bullet and enemy
and add 10 to the score. -/
def overlapBulletEnemy (s : GameState) (bi ei : Nat) : GameState :=
  match findIn s.playerBullets bi, findIn s.enemies ei with
  | some b, some e =>
    if !b.active || !e.active then s
    else if e.id = s.worm.id then
      { s with log := "Attempted to destroy worm as enemy - blocked." :: s.log }
    else
      addScore ((s.destroyPlayerBullet bi).destroyEnemy ei) 10
  | _, _ => s

/-- The `if (pb?.active) this.safeDestroy(pb)` pattern on a player bullet. -/
def bulletSideDestroy (s : GameState) (bi : Nat) : GameState :=
  match findIn s.playerBullets bi with
  | some pb => if pb.active then s.destroyPlayerBullet bi else s
  | none => s

/-- The `if (eb?.active) this.safeDestroy(eb)` pattern on an enemy bullet. -/
def enemyBulletSideDestroy (s : GameState) (ei : Nat) : GameState :=
  match findIn s.enemyBullets ei with
  | some eb => if eb.active then s.destroyEnemyBullet ei else s
  | none => s

/-- Player-bullet x enemy-bullet overlap (lines 120-125): each side destroyed
independently when active. -/
def overlapBulletEnemyBullet (s : GameState) (bi ei : Nat) : GameState :=
  enemyBulletSideDestroy (bulletSideDestroy s bi) ei

/-- Enemy-bullet x worm overlap (lines 128-133): destroy the bullet when
active; then, unless invulnerable or game over, lose a life. -/
def overlapEnemyBulletWorm (s : GameState) (ei : Nat) : GameState :=
  let s1 := enemyBulletSideDestroy s ei
  if s1.invulnerable || s1.isGameOver then s1
  else loseLife s1

/-- Set the `hasHit` data entry on the pool member(s) with the given id. -/
def markHasHit (pool : List Obj) (i : Nat) : List Obj :=
  pool.map (fun o => if o.id = i then { o with hasHit := true } else o)

/-- Enemy x worm overlap (lines 136-148): skip inactive enemies, enemies that
already hit, and the invulnerable/game-over cases; otherwise set `hasHit`,
lose a life, and destroy the enemy. -/
def overlapEnemyWorm (s : GameState) (ei : Nat) : GameState :=
  match findIn s.enemies ei with
  | none => s
  | some e =>
    if !e.active then s
    else if e.hasHit then s
    else if s.invulnerable || s.isGameOver then s
    else
      let s1 := { s with enemies := markHasHit s.enemies ei }
      (loseLife s1).destroyEnemy ei

/-- Player-bullet x heart overlap (lines 151-159): destroy the bullet when it
is active; when the heart is active, destroy it and heal by 28. -/
def overlapBulletHeart (s : GameState) (bi hi : Nat) : GameState :=
  let s1 := bulletSideDestroy s bi
  match findIn s1.hearts hi with
  | some h =>
    if h.active then heal (s1.destroyHeart hi) HEART_HEAL_AMOUNT else s1
  | none => s1

/-- Off-screen test for a player bullet (line 409). -/
def pbOffscreen (width : Int) (o : Obj) : Bool :=
  o.y < -80 || o.x < -80 || o.x > width + 80

/-- Off-screen test for an enemy bullet (line 415). -/
def ebOffscreen (width height : Int) (o : Obj) : Bool :=
  o.y > height + 200 || o.x < -200 || o.x > width + 200

/-- Off-screen test for an enemy (line 421): right margin only. -/
def enemyOffscreen (width : Int) (o : Obj) : Bool :=
  o.x > width + 160

/-- Off-screen test for a heart (line 427): right margin only. -/
def heartOffscreen (width : Int) (o : Obj) : Bool :=
  o.x > width + 60

/-- One pool's pass of `cleanupObjects`: every active member matching the
off-screen test goes through `safeDestroy`. -/
def cleanupPoolObjs (wormId : Nat) (pred : Obj → Bool) (pool : List Obj) :
    List Obj :=
  pool.map (fun o => if o.active && pred o then (destroyOne wormId o).1 else o)

/-- Warnings printed by one pool's pass of `cleanupObjects`. -/
def cleanupPoolWarns (wormId : Nat) (pred : Obj → Bool) (pool : List Obj) :
    List String :=
  (pool.filter (fun o => o.active && pred o)).foldr
    (fun o acc => (destroyOne wormId o).2 ++ acc) []

/-- `cleanupObjects` (lines 405-429) over the four pools, at the 900x505
canvas size. -/
def cleanupObjects (s : GameState) : GameState :=
  { s with
    playerBullets := cleanupPoolObjs s.worm.id (pbOffscreen GAME_WIDTH) s.playerBullets
    enemyBullets :=
      cleanupPoolObjs s.worm.id (ebOffscreen GAME_WIDTH GAME_HEIGHT) s.enemyBullets
    enemies := cleanupPoolObjs s.worm.id (enemyOffscreen GAME_WIDTH) s.enemies
    hearts := cleanupPoolObjs s.worm.id (heartOffscreen GAME_WIDTH) s.hearts
    log :=
      cleanupPoolWarns s.worm.id (heartOffscreen GAME_WIDTH) s.hearts ++
      cleanupPoolWarns s.worm.id (enemyOffscreen GAME_WIDTH) s.enemies ++
      cleanupPoolWarns s.worm.id (ebOffscreen GAME_WIDTH GAME_HEIGHT) s.enemyBullets ++
      cleanupPoolWarns s.worm.id (pbOffscreen GAME_WIDTH) s.playerBullets ++ s.log }

/-- Spawn interval for a wave (line 263). -/
def spawnDelay (w : Nat) : Nat := max 220 (900 - min (w * 60) 600)

/-- One tick of the 500ms wave-completion check (lines 320-337): stop when the
game is over; when the quota has been spawned and no enemy remains active,
advance the wave, bump `enemiesPerWave` up to the cap of 12, and schedule the
next `spawnWave` 700ms later. -/
def checkWaveTick (s : GameState) (spawned count : Nat) : GameState :=
  if s.isGameOver then s
  else if spawned ≥ count ∧ activeCount s.enemies = 0 then
    { s with wave := s.wave + 1
             enemiesPerWave := min 12 (s.enemiesPerWave + 1)
             pendingNextWaveMs := some 700 }
  else s

/-- `spawnWave` entry guard (line 260): a no-op unless the game is started and
not over; otherwise spawning for the current wave begins. -/
def spawnWave (s : GameState) : GameState :=
  if !s.gameStarted || s.isGameOver then s
  else { s with spawningActive := true, pendingNextWaveMs := none }

/-- The delayed callback scheduled by the wave advance (lines 332-334): calls
`spawnWave` unless the game has ended. -/
def nextWaveFire (s : GameState) : GameState :=
  if s.isGameOver then s else spawnWave s

/-- `startGame` (lines 454-482): reset scalars, clear all four pools, and
start wave 1. -/
def startGame (s : GameState) : GameState :=
  let s1 := { s with gameStarted := true, isGameOver := false, invulnerable := false
                     score := 0, health := s.maxHealth, lives := 3
                     wave := 1, enemiesPerWave := 4
                     enemies := [], playerBullets := [], enemyBullets := [], hearts := [] }
  spawnWave s1

/-- Events the collision resolver and combat state machine react to: the five
overlap rules, a raw destroy request, the per-tick cleanup pass, and the
direct state-machine operations. -/
inductive Event where
  | bulletEnemy (bi ei : Nat)
  | bulletEnemyBullet (bi ei : Nat)
  | enemyBulletWorm (ei : Nat)
  | enemyWorm (ei : Nat)
  | bulletHeart (bi hi : Nat)
  | destroyReq (i : Nat)
  | cleanup
  | lifeLoss
  | healEv (amount : Int)
  | scoreEv (n : Nat)
  | gameOverEv
deriving Repr, DecidableEq

/-- A life-loss event: one that can invoke `loseLife`. -/
def Event.isLifeLoss : Event → Bool
  | .enemyBulletWorm _ => true
  | .enemyWorm _ => true
  | .lifeLoss => true
  | _ => false

def step (s : GameState) : Event → GameState
  | .bulletEnemy bi ei => overlapBulletEnemy s bi ei
  | .bulletEnemyBullet bi ei => overlapBulletEnemyBullet s bi ei
  | .enemyBulletWorm ei => overlapEnemyBulletWorm s ei
  | .enemyWorm ei => overlapEnemyWorm s ei
  | .bulletHeart bi hi => overlapBulletHeart s bi hi
  | .destroyReq i => s.destroyId i
  | .cleanup => cleanupObjects s
  | .lifeLoss => loseLife s
  | .healEv a => heal s a
  | .scoreEv n => addScore s n
  | .gameOverEv => endGame s

/-- Run a sequence of events. -/
def run (s : GameState) (evs : List Event) : GameState := evs.foldl step s

/-- Run a sequence of heals. -/
def healSeq (s : GameState) (amounts : List Int) : GameState :=
  amounts.foldl heal s

/-! Basic facts about the destroy wrapper and the pools. -/

/-- Branch normal form of `destroyOne`. -/
theorem destroyOne_eq (w : Nat) (o : Obj) :
    destroyOne w o =
      if o.id = w then (o, ["safeDestroy blocked: attempted to destroy player worm."])
      else if o.active = false then (o, [])
      else if o.faulty = true then (o, ["safeDestroy error engine fault"])
      else ({ o with active := false }, []) := by
  unfold destroyOne engineDestroy
  split_ifs <;> rfl

@[simp] theorem destroyOne_fst_id (w : Nat) (o : Obj) :
    (destroyOne w o).1.id = o.id := by
  rw [destroyOne_eq]; split_ifs <;> rfl

@[simp] theorem destroyOne_fst_hasHit (w : Nat) (o : Obj) :
    (destroyOne w o).1.hasHit = o.hasHit := by
  rw [destroyOne_eq]; split_ifs <;> rfl

theorem findIn_some_id {pool : List Obj} {i : Nat} {o : Obj}
    (h : findIn pool i = some o) : o.id = i := by
  have := List.find?_some h
  simpa using this

theorem findIn_mem {pool : List Obj} {i : Nat} {o : Obj}
    (h : findIn pool i = some o) : o ∈ pool :=
  List.mem_of_find?_eq_some h

/-- Looking up the updated id after an id-preserving per-id map. -/
theorem findIn_map_update (pool : List Obj) (i : Nat) (f : Obj → Obj)
    (hf : ∀ o, (f o).id = o.id) :
    findIn (pool.map fun o => if o.id = i then f o else o) i
      = (findIn pool i).map f := by
  induction pool with
  | nil => rfl
  | cons a t ih =>
    by_cases h : a.id = i
    · simp [findIn, List.find?_cons, h, hf a] at ih ⊢
    · simp [findIn, List.find?_cons, h, hf a] at ih ⊢
      exact ih

theorem findIn_destroyPool (w : Nat) (pool : List Obj) (i : Nat) :
    findIn (destroyPool w pool i) i
      = (findIn pool i).map (fun o => (destroyOne w o).1) :=
  findIn_map_update pool i _ (fun o => destroyOne_fst_id w o)

theorem findIn_markHasHit (pool : List Obj) (i : Nat) :
    findIn (markHasHit pool i) i
      = (findIn pool i).map (fun o => { o with hasHit := true }) :=
  findIn_map_update pool i _ (fun _ => rfl)

/-! Field-preservation lemmas for the state operations. -/

@[simp] theorem endGame_worm (s : GameState) : (endGame s).worm = s.worm := by
  unfold endGame; split <;> rfl

@[simp] theorem endGame_lives (s : GameState) : (endGame s).lives = s.lives := by
  unfold endGame; split <;> rfl

@[simp] theorem endGame_health (s : GameState) : (endGame s).health = s.health := by
  unfold endGame; split <;> rfl

@[simp] theorem endGame_maxHealth (s : GameState) :
    (endGame s).maxHealth = s.maxHealth := by
  unfold endGame; split <;> rfl

@[simp] theorem endGame_enemies (s : GameState) :
    (endGame s).enemies = s.enemies := by
  unfold endGame; split <;> rfl

@[simp] theorem endGame_invulnerable (s : GameState) :
    (endGame s).invulnerable = s.invulnerable := by
  unfold endGame; split <;> rfl

@[simp] theorem endGame_pendingInvulnMs (s : GameState) :
    (endGame s).pendingInvulnMs = s.pendingInvulnMs := by
  unfold endGame; split <;> rfl

@[simp] theorem endGame_isGameOver (s : GameState) :
    (endGame s).isGameOver = true := by
  unfold endGame
  split
  · assumption
  · rfl

@[simp] theorem loseLife_worm (s : GameState) : (loseLife s).worm = s.worm := by
  simp only [loseLife]
  split_ifs <;> simp

@[simp] theorem loseLife_health (s : GameState) :
    (loseLife s).health = s.health := by
  simp only [loseLife]
  split_ifs <;> simp

@[simp] theorem loseLife_maxHealth (s : GameState) :
    (loseLife s).maxHealth = s.maxHealth := by
  simp only [loseLife]
  split_ifs <;> simp

@[simp] theorem loseLife_enemies (s : GameState) :
    (loseLife s).enemies = s.enemies := by
  simp only [loseLife]
  split_ifs <;> simp

theorem loseLife_lives (s : GameState) :
    (loseLife s).lives = if s.isGameOver = true then s.lives
                         else max (s.lives - 1) 0 := by
  simp only [loseLife]
  split_ifs with h1 h2 <;> simp_all <;> omega

theorem loseLife_invulnerable (s : GameState) :
    (loseLife s).invulnerable
      = if s.isGameOver = true then s.invulnerable else true := by
  simp only [loseLife]
  split_ifs <;> simp_all

theorem loseLife_pendingInvulnMs (s : GameState) :
    (loseLife s).pendingInvulnMs
      = if s.isGameOver = true then s.pendingInvulnMs
        else some INVULNERABLE_MS_AFTER_HIT := by
  simp only [loseLife]
  split_ifs <;> simp_all

theorem loseLife_isGameOver (s : GameState) :
    (loseLife s).isGameOver
      = if s.isGameOver = true then true
        else decide (s.lives - 1 ≤ 0) := by
  simp only [loseLife]
  split_ifs with h1 h2 <;> simp_all

@[simp] theorem heal_worm (s : GameState) (a : Int) :
    (heal s a).worm = s.worm := by
  unfold heal; split <;> rfl

@[simp] theorem heal_lives (s : GameState) (a : Int) :
    (heal s a).lives = s.lives := by
  unfold heal; split <;> rfl

@[simp] theorem heal_maxHealth (s : GameState) (a : Int) :
    (heal s a).maxHealth = s.maxHealth := by
  unfold heal; split <;> rfl

theorem heal_health (s : GameState) (a : Int) :
    (heal s a).health = if s.isGameOver = true then s.health
                        else clamp (s.health + a) 0 s.maxHealth := by
  unfold heal; split <;> simp_all

theorem bulletSideDestroy_cases (s : GameState) (bi : Nat) :
    bulletSideDestroy s bi = s
      ∨ bulletSideDestroy s bi = s.destroyPlayerBullet bi := by
  unfold bulletSideDestroy
  split
  · split
    · right; rfl
    · left; rfl
  · left; rfl

theorem enemyBulletSideDestroy_cases (s : GameState) (ei : Nat) :
    enemyBulletSideDestroy s ei = s
      ∨ enemyBulletSideDestroy s ei = s.destroyEnemyBullet ei := by
  unfold enemyBulletSideDestroy
  split
  · split
    · right; rfl
    · left; rfl
  · left; rfl

@[simp] theorem bulletSideDestroy_worm (s : GameState) (bi : Nat) :
    (bulletSideDestroy s bi).worm = s.worm := by
  rcases bulletSideDestroy_cases s bi with h | h <;> rw [h] <;> rfl

@[simp] theorem bulletSideDestroy_lives (s : GameState) (bi : Nat) :
    (bulletSideDestroy s bi).lives = s.lives := by
  rcases bulletSideDestroy_cases s bi with h | h <;> rw [h] <;> rfl

@[simp] theorem bulletSideDestroy_health (s : GameState) (bi : Nat) :
    (bulletSideDestroy s bi).health = s.health := by
  rcases bulletSideDestroy_cases s bi with h | h <;> rw [h] <;> rfl

@[simp] theorem bulletSideDestroy_maxHealth (s : GameState) (bi : Nat) :
    (bulletSideDestroy s bi).maxHealth = s.maxHealth := by
  rcases bulletSideDestroy_cases s bi with h | h <;> rw [h] <;> rfl

@[simp] theorem bulletSideDestroy_isGameOver (s : GameState) (bi : Nat) :
    (bulletSideDestroy s bi).isGameOver = s.isGameOver := by
  rcases bulletSideDestroy_cases s bi with h | h <;> rw [h] <;> rfl

@[simp] theorem bulletSideDestroy_invulnerable (s : GameState) (bi : Nat) :
    (bulletSideDestroy s bi).invulnerable = s.invulnerable := by
  rcases bulletSideDestroy_cases s bi with h | h <;> rw [h] <;> rfl

@[simp] theorem bulletSideDestroy_pendingInvulnMs (s : GameState) (bi : Nat) :
    (bulletSideDestroy s bi).pendingInvulnMs = s.pendingInvulnMs := by
  rcases bulletSideDestroy_cases s bi with h | h <;> rw [h] <;> rfl

@[simp] theorem bulletSideDestroy_hearts (s : GameState) (bi : Nat) :
    (bulletSideDestroy s bi).hearts = s.hearts := by
  rcases bulletSideDestroy_cases s bi with h | h <;> rw [h] <;> rfl

@[simp] theorem bulletSideDestroy_enemies (s : GameState) (bi : Nat) :
    (bulletSideDestroy s bi).enemies = s.enemies := by
  rcases bulletSideDestroy_cases s bi with h | h <;> rw [h] <;> rfl

@[simp] theorem bulletSideDestroy_enemyBullets (s : GameState) (bi : Nat) :
    (bulletSideDestroy s bi).enemyBullets = s.enemyBullets := by
  rcases bulletSideDestroy_cases s bi with h | h <;> rw [h] <;> rfl

@[simp] theorem enemyBulletSideDestroy_worm (s : GameState) (ei : Nat) :
    (enemyBulletSideDestroy s ei).worm = s.worm := by
  rcases enemyBulletSideDestroy_cases s ei with h | h <;> rw [h] <;> rfl

@[simp] theorem enemyBulletSideDestroy_lives (s : GameState) (ei : Nat) :
    (enemyBulletSideDestroy s ei).lives = s.lives := by
  rcases enemyBulletSideDestroy_cases s ei with h | h <;> rw [h] <;> rfl

@[simp] theorem enemyBulletSideDestroy_health (s : GameState) (ei : Nat) :
    (enemyBulletSideDestroy s ei).health = s.health := by
  rcases enemyBulletSideDestroy_cases s ei with h | h <;> rw [h] <;> rfl

@[simp] theorem enemyBulletSideDestroy_maxHealth (s : GameState) (ei : Nat) :
    (enemyBulletSideDestroy s ei).maxHealth = s.maxHealth := by
  rcases enemyBulletSideDestroy_cases s ei with h | h <;> rw [h] <;> rfl

@[simp] theorem enemyBulletSideDestroy_isGameOver (s : GameState) (ei : Nat) :
    (enemyBulletSideDestroy s ei).isGameOver = s.isGameOver := by
  rcases enemyBulletSideDestroy_cases s ei with h | h <;> rw [h] <;> rfl

@[simp] theorem enemyBulletSideDestroy_invulnerable (s : GameState) (ei : Nat) :
    (enemyBulletSideDestroy s ei).invulnerable = s.invulnerable := by
  rcases enemyBulletSideDestroy_cases s ei with h | h <;> rw [h] <;> rfl

@[simp] theorem enemyBulletSideDestroy_pendingInvulnMs (s : GameState) (ei : Nat) :
    (enemyBulletSideDestroy s ei).pendingInvulnMs = s.pendingInvulnMs := by
  rcases enemyBulletSideDestroy_cases s ei with h | h <;> rw [h] <;> rfl

/-! Worm preservation: no event ever changes the worm field. -/

@[simp] theorem destroyId_worm (s : GameState) (i : Nat) :
    (s.destroyId i).worm = s.worm := by
  unfold GameState.destroyId; split <;> rfl

@[simp] theorem cleanupObjects_worm (s : GameState) :
    (cleanupObjects s).worm = s.worm := rfl

@[simp] theorem overlapBulletEnemy_worm (s : GameState) (bi ei : Nat) :
    (overlapBulletEnemy s bi ei).worm = s.worm := by
  unfold overlapBulletEnemy
  split
  · split_ifs <;> rfl
  · rfl

@[simp] theorem overlapBulletEnemyBullet_worm (s : GameState) (bi ei : Nat) :
    (overlapBulletEnemyBullet s bi ei).worm = s.worm := by
  unfold overlapBulletEnemyBullet
  rw [enemyBulletSideDestroy_worm, bulletSideDestroy_worm]

@[simp] theorem overlapEnemyBulletWorm_worm (s : GameState) (ei : Nat) :
    (overlapEnemyBulletWorm s ei).worm = s.worm := by
  unfold overlapEnemyBulletWorm
  dsimp only
  split_ifs <;> simp

@[simp] theorem overlapEnemyWorm_worm (s : GameState) (ei : Nat) :
    (overlapEnemyWorm s ei).worm = s.worm := by
  unfold overlapEnemyWorm
  split
  · rfl
  · split_ifs <;> simp [GameState.destroyEnemy]

@[simp] theorem overlapBulletHeart_worm (s : GameState) (bi hi : Nat) :
    (overlapBulletHeart s bi hi).worm = s.worm := by
  unfold overlapBulletHeart
  dsimp only
  split
  · split_ifs <;> simp [GameState.destroyHeart]
  · simp

theorem step_worm (s : GameState) (ev : Event) : (step s ev).worm = s.worm := by
  cases ev <;> simp [step, addScore]

theorem run_worm (s : GameState) (evs : List Event) :
    (run s evs).worm = s.worm := by
  induction evs generalizing s with
  | nil => rfl
  | cons ev t ih => exact (ih (step s ev)).trans (step_worm s ev)

/-! Lives: monotone non-increasing and non-negative under every event. -/

theorem loseLife_lives_mono (s : GameState) (h : 0 ≤ s.lives) :
    (loseLife s).lives ≤ s.lives ∧ 0 ≤ (loseLife s).lives := by
  rw [loseLife_lives]; split_ifs <;> omega

@[simp] theorem overlapBulletEnemy_lives (s : GameState) (bi ei : Nat) :
    (overlapBulletEnemy s bi ei).lives = s.lives := by
  unfold overlapBulletEnemy
  split
  · split_ifs <;> rfl
  · rfl

@[simp] theorem overlapBulletEnemyBullet_lives (s : GameState) (bi ei : Nat) :
    (overlapBulletEnemyBullet s bi ei).lives = s.lives := by
  unfold overlapBulletEnemyBullet
  rw [enemyBulletSideDestroy_lives, bulletSideDestroy_lives]

theorem overlapEnemyBulletWorm_lives (s : GameState) (ei : Nat) :
    (overlapEnemyBulletWorm s ei).lives
      = if s.invulnerable || s.isGameOver then s.lives
        else (loseLife s).lives := by
  unfold overlapEnemyBulletWorm
  rw [loseLife_lives]
  split_ifs with h1 h2 <;> simp_all [loseLife_lives]

theorem overlapEnemyWorm_lives (s : GameState) (ei : Nat) :
    (overlapEnemyWorm s ei).lives = s.lives
      ∨ (overlapEnemyWorm s ei).lives
          = (if s.isGameOver = true then s.lives else max (s.lives - 1) 0) := by
  unfold overlapEnemyWorm
  split
  · left; rfl
  · rename_i e heq
    by_cases h1 : (!e.active) = true
    · rw [if_pos h1]; left; rfl
    · rw [if_neg h1]
      by_cases h2 : e.hasHit = true
      · rw [if_pos h2]; left; rfl
      · rw [if_neg h2]
        by_cases h3 : (s.invulnerable || s.isGameOver) = true
        · rw [if_pos h3]; left; rfl
        · rw [if_neg h3]
          right
          have hd : ∀ (t : GameState) (i : Nat), (t.destroyEnemy i).lives = t.lives :=
            fun t i => rfl
          rw [hd, loseLife_lives]

@[simp] theorem overlapBulletHeart_lives (s : GameState) (bi hi : Nat) :
    (overlapBulletHeart s bi hi).lives = s.lives := by
  unfold overlapBulletHeart
  dsimp only
  split
  · split_ifs <;> simp [GameState.destroyHeart]
  · simp

@[simp] theorem destroyId_lives (s : GameState) (i : Nat) :
    (s.destroyId i).lives = s.lives := by
  unfold GameState.destroyId; split <;> rfl

theorem step_lives_mono (s : GameState) (ev : Event) (h : 0 ≤ s.lives) :
    (step s ev).lives ≤ s.lives ∧ 0 ≤ (step s ev).lives := by
  cases ev with
  | enemyBulletWorm ei =>
    rw [step, overlapEnemyBulletWorm_lives, loseLife_lives]
    split_ifs <;> omega
  | enemyWorm ei =>
    rcases overlapEnemyWorm_lives s ei with hl | hl <;>
      rw [step] <;> rw [hl]
    · omega
    · split_ifs <;> omega
  | lifeLoss =>
    rw [step, loseLife_lives]; split_ifs <;> omega
  | gameOverEv =>
    rw [step, endGame_lives]; omega
  | healEv a => rw [step, heal_lives]; omega
  | bulletEnemy bi ei => rw [step, overlapBulletEnemy_lives]; omega
  | bulletEnemyBullet bi ei => rw [step, overlapBulletEnemyBullet_lives]; omega
  | bulletHeart bi hi => rw [step, overlapBulletHeart_lives]; omega
  | destroyReq i => rw [step, destroyId_lives]; omega
  | cleanup => rw [step]; exact ⟨le_refl _, h⟩
  | scoreEv n => rw [step]; exact ⟨le_refl _, h⟩

theorem run_lives_mono (s : GameState) (evs : List Event) (h : 0 ≤ s.lives) :
    0 ≤ (run s evs).lives ∧ (run s evs).lives ≤ s.lives := by
  induction evs generalizing s with
  | nil => exact ⟨h, le_refl _⟩
  | cons ev t ih =>
    have h1 := step_lives_mono s ev h
    have h2 := ih (step s ev) h1.2
    exact ⟨h2.1, le_trans h2.2 h1.1⟩

/-! Health: untouched by the life-loss events, kept in range by heals. -/

@[simp] theorem overlapEnemyBulletWorm_health (s : GameState) (ei : Nat) :
    (overlapEnemyBulletWorm s ei).health = s.health := by
  unfold overlapEnemyBulletWorm
  dsimp only
  split_ifs <;> simp

@[simp] theorem overlapEnemyWorm_health (s : GameState) (ei : Nat) :
    (overlapEnemyWorm s ei).health = s.health := by
  unfold overlapEnemyWorm
  split
  · rfl
  · split_ifs <;>
      first
        | rfl
        | (show ((loseLife _).destroyEnemy _).health = _
           have hd : ∀ (t : GameState) (i : Nat), (t.destroyEnemy i).health = t.health :=
             fun t i => rfl
           rw [hd, loseLife_health])

theorem step_health_lifeLoss (s : GameState) (ev : Event)
    (h : Event.isLifeLoss ev = true) : (step s ev).health = s.health := by
  cases ev <;> simp_all [Event.isLifeLoss, step]

theorem heal_health_bounds (s : GameState) (a : Int) (hm : 0 ≤ s.maxHealth)
    (h0 : 0 ≤ s.health) (h1 : s.health ≤ s.maxHealth) :
    0 ≤ (heal s a).health ∧ (heal s a).health ≤ s.maxHealth := by
  rw [heal_health]
  unfold clamp
  split_ifs <;> omega

theorem healSeq_bounds (s : GameState) (amounts : List Int)
    (hm : 0 ≤ s.maxHealth) (h0 : 0 ≤ s.health) (h1 : s.health ≤ s.maxHealth) :
    0 ≤ (healSeq s amounts).health ∧ (healSeq s amounts).health ≤ s.maxHealth := by
  induction amounts generalizing s with
  | nil => exact ⟨h0, h1⟩
  | cons a t ih =>
    have hb := heal_health_bounds s a hm h0 h1
    have hmx : (heal s a).maxHealth = s.maxHealth := heal_maxHealth s a
    have := ih (heal s a) (by rw [hmx]; exact hm) hb.1 (by rw [hmx]; exact hb.2)
    exact ⟨this.1, by
      have h2 := this.2
      rw [hmx] at h2
      exact h2⟩

theorem endGame_idem (s : GameState) : endGame (endGame s) = endGame s := by
  nth_rewrite 1 [endGame]
  rw [endGame_isGameOver]
  simp

@[simp] theorem heal_hearts (s : GameState) (a : Int) :
    (heal s a).hearts = s.hearts := by
  unfold heal; split <;> rfl

/-- Membership form of the cleanup pass: an active pool member matching its
off-screen test is replaced by its destroyed version. -/
theorem cleanupPool_mem_destroy (w : Nat) (pred : Obj → Bool) (pool : List Obj)
    (o : Obj) (hm : o ∈ pool) (ha : o.active = true) (hp : pred o = true)
    (hf : o.faulty = false) (hid : o.id ≠ w) :
    { o with active := false } ∈ cleanupPoolObjs w pred pool := by
  have h2 := List.mem_map_of_mem
    (fun o => if o.active && pred o then (destroyOne w o).1 else o) hm
  simpa [cleanupPoolObjs, ha, hp, destroyOne_eq, hid, hf] using h2

/-- A pool member not matching its off-screen test is kept unchanged by the
cleanup pass. -/
theorem cleanupPool_mem_keep (w : Nat) (pred : Obj → Bool) (pool : List Obj)
    (o : Obj) (hm : o ∈ pool) (h : (o.active && pred o) = false) :
    o ∈ cleanupPoolObjs w pred pool := by
  have h2 := List.mem_map_of_mem
    (fun o => if o.active && pred o then (destroyOne w o).1 else o) hm
  simpa [cleanupPoolObjs, h] using h2

/-! Concrete objects and states used by witnesses and counterexamples. -/

def wormW : Obj := { id := 0 }

def bulletW : Obj := { id := 1, x := 100, y := 100 }

def enemyAsWormW : Obj := { id := 0, x := 50, y := 50 }

def baseW : GameState :=
  { worm := wormW, gameStarted := true
    playerBullets := [bulletW], enemies := [enemyAsWormW] }

def livesOneW : GameState := { worm := wormW, gameStarted := true, lives := 1 }

def healW : GameState := { worm := wormW, gameStarted := true, health := 90 }

/-! Claim theorems. -/

/-- C1: the worm is never removed: no event sequence changes the worm entity;
a destroy request aimed at the worm only logs a warning; `safeDestroy` on the
worm returns it unchanged with a warning; and the bullet-enemy rule refuses an
"enemy" that is the worm, logging a warning and destroying nothing. -/
theorem c1_player_never_destroyed (s : GameState) (evs : List Event)
    (bi ei : Nat) (b e : Obj) :
    (run s evs).worm = s.worm
  ∧ s.destroyId s.worm.id
      = { s with log := "safeDestroy blocked: attempted to destroy player worm." :: s.log }
  ∧ safeDestroy s.worm.id (some s.worm)
      = Except.ok (some s.worm, ["safeDestroy blocked: attempted to destroy player worm."])
  ∧ (findIn s.playerBullets bi = some b → findIn s.enemies ei = some e →
      b.active = true → e.active = true → e.id = s.worm.id →
      overlapBulletEnemy s bi ei
        = { s with log := "Attempted to destroy worm as enemy - blocked." :: s.log }) := by
  refine ⟨run_worm s evs, ?_, ?_, ?_⟩
  · unfold GameState.destroyId
    rw [if_pos rfl]
  · unfold safeDestroy
    dsimp only
    rw [if_pos rfl]
  · intro hb he hba hea hid
    unfold overlapBulletEnemy
    rw [hb, he]
    simp [hba, hea, hid]

/-- Witness for C1 at a concrete state whose enemies pool resolves to the
worm itself. -/
theorem c1_player_never_destroyed_witness :
    (run baseW [Event.destroyReq 0]).worm = baseW.worm
  ∧ overlapBulletEnemy baseW 1 0
      = { baseW with log := "Attempted to destroy worm as enemy - blocked." :: baseW.log } :=
  ⟨(c1_player_never_destroyed baseW [Event.destroyReq 0] 1 0 bulletW enemyAsWormW).1,
   (c1_player_never_destroyed baseW [Event.destroyReq 0] 1 0 bulletW enemyAsWormW).2.2.2
     (by decide) (by decide) (by decide) (by decide) (by decide)⟩

/-- C2: under every event sequence the lives counter stays non-negative and
never increases; losing the last life clamps lives to 0 and sets game over;
a `loseLife` while already game over is a no-op; a second `endGame` has no
effect. -/
theorem c2_lives_monotone_and_single_gameover (s : GameState) (evs : List Event) :
    0 ≤ s.lives →
    ( 0 ≤ (run s evs).lives
    ∧ (run s evs).lives ≤ s.lives
    ∧ (s.isGameOver = false → s.lives = 1 →
        (loseLife s).lives = 0 ∧ (loseLife s).isGameOver = true)
    ∧ (s.isGameOver = true → loseLife s = s)
    ∧ endGame (endGame s) = endGame s ) := by
  intro h
  refine ⟨(run_lives_mono s evs h).1, (run_lives_mono s evs h).2, ?_, ?_,
    endGame_idem s⟩
  · intro hgo hl
    constructor
    · rw [loseLife_lives, hgo]
      simp [hl]
    · rw [loseLife_isGameOver, hgo]
      simp [hl]
  · intro hgo
    unfold loseLife
    rw [if_pos hgo]

/-- Witness for C2 at lives = 1 with one life-loss event. -/
theorem c2_lives_monotone_and_single_gameover_witness :
    0 ≤ (run livesOneW [Event.lifeLoss]).lives
  ∧ (run livesOneW [Event.lifeLoss]).lives ≤ livesOneW.lives
  ∧ (livesOneW.isGameOver = false → livesOneW.lives = 1 →
      (loseLife livesOneW).lives = 0 ∧ (loseLife livesOneW).isGameOver = true)
  ∧ (livesOneW.isGameOver = true → loseLife livesOneW = livesOneW)
  ∧ endGame (endGame livesOneW) = endGame livesOneW :=
  c2_lives_monotone_and_single_gameover livesOneW [Event.lifeLoss] (by decide)

/-- C4: health is unaffected by every life-loss event; any sequence of heals
keeps health within [0, maxHealth]; healing 28 from health 90 with maxHealth
100 clamps to 100. -/
theorem c4_health_only_heals (s : GameState) (amounts : List Int) (ev : Event) :
    (Event.isLifeLoss ev = true → (step s ev).health = s.health)
  ∧ (0 ≤ s.maxHealth → 0 ≤ s.health → s.health ≤ s.maxHealth →
      0 ≤ (healSeq s amounts).health ∧ (healSeq s amounts).health ≤ s.maxHealth)
  ∧ (s.health = 90 → s.maxHealth = 100 → s.isGameOver = false →
      (heal s 28).health = 100) := by
  refine ⟨step_health_lifeLoss s ev, healSeq_bounds s amounts, ?_⟩
  intro h90 h100 hgo
  rw [heal_health, hgo, h90, h100]
  simp [clamp]

/-- Witness for C4 at health = 90, maxHealth = 100. -/
theorem c4_health_only_heals_witness :
    (step healW Event.lifeLoss).health = healW.health
  ∧ (0 ≤ (healSeq healW [28]).health
      ∧ (healSeq healW [28]).health ≤ healW.maxHealth)
  ∧ (heal healW 28).health = 100 :=
  ⟨(c4_health_only_heals healW [28] Event.lifeLoss).1 rfl,
   (c4_health_only_heals healW [28] Event.lifeLoss).2.1 (by decide) (by decide) (by decide),
   (c4_health_only_heals healW [28] Event.lifeLoss).2.2 rfl rfl rfl⟩

def enemyAliveW : Obj := { id := 5, x := 200, y := 200 }

def c3S : GameState :=
  { worm := wormW, gameStarted := true, lives := 1
    enemies := [enemyAliveW], playerBullets := [bulletW] }

/-- C3 counterexample: with one life left and an active enemy on screen, the
final life loss transitions the run to game over, but the enemies pool is not
cleared - the enemy is still present and active, contradicting the claim that
all transient pools are cleared on GAME_OVER. -/
theorem c3_counterexample :
    (loseLife c3S).isGameOver = true
  ∧ (loseLife c3S).lives = 0
  ∧ activeCount (loseLife c3S).enemies = 1
  ∧ findIn (loseLife c3S).enemies 5 = some enemyAliveW := by decide

/-- C3 (amended): when the run transitions to GAME_OVER, `endGame` clears the
player-projectile, enemy-projectile and pickup pools, but leaves the enemies
pool untouched; the enemies pool is cleared only by a restart (`startGame`). -/
theorem c3_gameover_pool_clearing (s : GameState) :
    s.isGameOver = false →
    ( (endGame s).playerBullets = []
    ∧ (endGame s).enemyBullets = []
    ∧ (endGame s).hearts = []
    ∧ (endGame s).isGameOver = true
    ∧ (endGame s).enemies = s.enemies
    ∧ (startGame s).enemies = [] ) := by
  intro h
  have hend : endGame s = { s with
      isGameOver := true, gameStarted := false, playerBullets := [],
      enemyBullets := [], hearts := [] } := by
    unfold endGame
    rw [if_neg (by simp [h])]
  refine ⟨by rw [hend], by rw [hend], by rw [hend], by rw [hend], by rw [hend], ?_⟩
  unfold startGame spawnWave
  dsimp only
  split_ifs <;> rfl

/-- Witness for C3's amended statement at the counterexample state. -/
theorem c3_gameover_pool_clearing_witness :
    (endGame c3S).playerBullets = []
  ∧ (endGame c3S).enemyBullets = []
  ∧ (endGame c3S).hearts = []
  ∧ (endGame c3S).isGameOver = true
  ∧ (endGame c3S).enemies = c3S.enemies
  ∧ (startGame c3S).enemies = [] :=
  c3_gameover_pool_clearing c3S rfl

def farLeftEnemyW : Obj := { id := 7, x := -500, y := 100 }

def c6S : GameState :=
  { worm := wormW, gameStarted := true, enemies := [farLeftEnemyW] }

/-- C6 counterexample: an active enemy far past the left margin survives the
cleanup pass unchanged (still present and active), contradicting the claim
that enemies past the left margin are removed. -/
theorem c6_counterexample :
    farLeftEnemyW.active = true
  ∧ farLeftEnemyW.x < -160
  ∧ findIn (cleanupObjects c6S).enemies 7 = some farLeftEnemyW := by decide

/-- C6 (amended): the cleanup pass destroys an active player projectile with
y < -80, x < -80 or x > 980; an active enemy projectile with y > 705,
x < -200 or x > 1100; an active enemy only when x > 1060 and an active pickup
only when x > 960 (right margin only); every pool member not matching its
off-screen test is kept unchanged - in particular enemies and pickups past
the left margin, and player projectiles below the bottom, survive. -/
theorem c6_cleanup_margins (s : GameState) (o : Obj) :
    (o ∈ s.playerBullets → o.active = true → o.faulty = false →
      o.id ≠ s.worm.id → pbOffscreen GAME_WIDTH o = true →
      { o with active := false } ∈ (cleanupObjects s).playerBullets)
  ∧ (o ∈ s.enemyBullets → o.active = true → o.faulty = false →
      o.id ≠ s.worm.id → ebOffscreen GAME_WIDTH GAME_HEIGHT o = true →
      { o with active := false } ∈ (cleanupObjects s).enemyBullets)
  ∧ (o ∈ s.enemies → o.active = true → o.faulty = false →
      o.id ≠ s.worm.id → enemyOffscreen GAME_WIDTH o = true →
      { o with active := false } ∈ (cleanupObjects s).enemies)
  ∧ (o ∈ s.hearts → o.active = true → o.faulty = false →
      o.id ≠ s.worm.id → heartOffscreen GAME_WIDTH o = true →
      { o with active := false } ∈ (cleanupObjects s).hearts)
  ∧ (o ∈ s.enemies → (o.active && enemyOffscreen GAME_WIDTH o) = false →
      o ∈ (cleanupObjects s).enemies)
  ∧ (o ∈ s.hearts → (o.active && heartOffscreen GAME_WIDTH o) = false →
      o ∈ (cleanupObjects s).hearts)
  ∧ (o ∈ s.playerBullets → (o.active && pbOffscreen GAME_WIDTH o) = false →
      o ∈ (cleanupObjects s).playerBullets)
  ∧ (o ∈ s.enemyBullets →
      (o.active && ebOffscreen GAME_WIDTH GAME_HEIGHT o) = false →
      o ∈ (cleanupObjects s).enemyBullets) := by
  refine ⟨?_, ?_, ?_, ?_, ?_, ?_, ?_, ?_⟩
  · intro hm ha hf hid hp
    exact cleanupPool_mem_destroy s.worm.id _ s.playerBullets o hm ha hp hf hid
  · intro hm ha hf hid hp
    exact cleanupPool_mem_destroy s.worm.id _ s.enemyBullets o hm ha hp hf hid
  · intro hm ha hf hid hp
    exact cleanupPool_mem_destroy s.worm.id _ s.enemies o hm ha hp hf hid
  · intro hm ha hf hid hp
    exact cleanupPool_mem_destroy s.worm.id _ s.hearts o hm ha hp hf hid
  · intro hm hn
    exact cleanupPool_mem_keep s.worm.id _ s.enemies o hm hn
  · intro hm hn
    exact cleanupPool_mem_keep s.worm.id _ s.hearts o hm hn
  · intro hm hn
    exact cleanupPool_mem_keep s.worm.id _ s.playerBullets o hm hn
  · intro hm hn
    exact cleanupPool_mem_keep s.worm.id _ s.enemyBullets o hm hn

def offPbW : Obj := { id := 11, x := 100, y := -100 }

def belowPbW : Obj := { id := 12, x := 100, y := 1000 }

def aboveEbW : Obj := { id := 13, x := 100, y := -999 }

def c6W : GameState :=
  { worm := wormW, gameStarted := true
    playerBullets := [offPbW, belowPbW], enemyBullets := [aboveEbW]
    enemies := [farLeftEnemyW] }

/-- Witness for C6's amended statement: a player bullet above the top margin
is destroyed, while the far-left enemy, a player bullet far below the bottom
and an enemy bullet far above the top are all kept. -/
theorem c6_cleanup_margins_witness :
    { offPbW with active := false } ∈ (cleanupObjects c6W).playerBullets
  ∧ farLeftEnemyW ∈ (cleanupObjects c6W).enemies
  ∧ belowPbW ∈ (cleanupObjects c6W).playerBullets
  ∧ aboveEbW ∈ (cleanupObjects c6W).enemyBullets :=
  ⟨(c6_cleanup_margins c6W offPbW).1 (by decide) (by decide) (by decide)
     (by decide) (by decide),
   (c6_cleanup_margins c6W farLeftEnemyW).2.2.2.2.1 (by decide) (by decide),
   (c6_cleanup_margins c6W belowPbW).2.2.2.2.2.2.1 (by decide) (by decide),
   (c6_cleanup_margins c6W aboveEbW).2.2.2.2.2.2.2 (by decide) (by decide)⟩

def emptyFieldW : GameState := { worm := wormW, gameStarted := true }

def overW : GameState := { worm := wormW, isGameOver := true }

/-- C7: the spawn interval for wave w is max(220, 900 - min(w*60, 600)) ms,
i.e. 840 ms at wave 1 (and never below 300, so the 220 floor never binds);
the wave-completion check is inert while the game is over or while the quota
is unmet or enemies remain active, and otherwise increments the wave, bumps
`enemiesPerWave` to at most 12, and schedules the next wave 700 ms later; the
delayed re-entry into spawning is aborted when the game has ended. -/
theorem c7_wave_progression (s : GameState) (spawned count w : Nat) :
    spawnDelay 1 = 840
  ∧ spawnDelay w = 900 - min (w * 60) 600
  ∧ 300 ≤ spawnDelay w
  ∧ (s.isGameOver = true → checkWaveTick s spawned count = s)
  ∧ (s.isGameOver = false → spawned ≥ count → activeCount s.enemies = 0 →
      (checkWaveTick s spawned count).wave = s.wave + 1
    ∧ (checkWaveTick s spawned count).enemiesPerWave
        = min 12 (s.enemiesPerWave + 1)
    ∧ (checkWaveTick s spawned count).pendingNextWaveMs = some 700)
  ∧ (s.isGameOver = false → ¬(spawned ≥ count ∧ activeCount s.enemies = 0) →
      checkWaveTick s spawned count = s)
  ∧ (s.isGameOver = true → nextWaveFire s = s)
  ∧ (s.isGameOver = false → s.gameStarted = true →
      (nextWaveFire s).spawningActive = true) := by
  refine ⟨by simp [spawnDelay], ?_, ?_, ?_, ?_, ?_, ?_, ?_⟩
  · simp [spawnDelay]
    omega
  · simp [spawnDelay]
    omega
  · intro h
    unfold checkWaveTick
    rw [if_pos h]
  · intro hgo hsp hac
    unfold checkWaveTick
    rw [if_neg (by simp [hgo]), if_pos ⟨hsp, hac⟩]
    exact ⟨rfl, rfl, rfl⟩
  · intro hgo hn
    unfold checkWaveTick
    rw [if_neg (by simp [hgo]), if_neg hn]
  · intro h
    unfold nextWaveFire
    rw [if_pos h]
  · intro hgo hgs
    unfold nextWaveFire spawnWave
    rw [if_neg (by simp [hgo]), if_neg (by simp [hgo, hgs])]

/-- Witness for C7: a finished wave-1 quota with no active enemies advances
to wave 2 with 5 enemies per wave; a game-over state is inert. -/
theorem c7_wave_progression_witness :
    (checkWaveTick emptyFieldW 4 4).wave = emptyFieldW.wave + 1
  ∧ (checkWaveTick emptyFieldW 4 4).enemiesPerWave
      = min 12 (emptyFieldW.enemiesPerWave + 1)
  ∧ (checkWaveTick emptyFieldW 4 4).pendingNextWaveMs = some 700
  ∧ checkWaveTick emptyFieldW 0 4 = emptyFieldW
  ∧ checkWaveTick overW 4 4 = overW
  ∧ nextWaveFire overW = overW
  ∧ (nextWaveFire emptyFieldW).spawningActive = true :=
  ⟨((c7_wave_progression emptyFieldW 4 4 1).2.2.2.2.1 rfl (by decide) (by decide)).1,
   ((c7_wave_progression emptyFieldW 4 4 1).2.2.2.2.1 rfl (by decide) (by decide)).2.1,
   ((c7_wave_progression emptyFieldW 4 4 1).2.2.2.2.1 rfl (by decide) (by decide)).2.2,
   (c7_wave_progression emptyFieldW 0 4 1).2.2.2.2.2.1 rfl (by decide),
   (c7_wave_progression overW 4 4 1).2.2.2.1 rfl,
   (c7_wave_progression overW 4 4 1).2.2.2.2.2.2.1 rfl,
   (c7_wave_progression emptyFieldW 4 4 1).2.2.2.2.2.2.2 rfl rfl⟩

/-- C8: while invulnerable, an enemy-worm overlap is a complete no-op and an
enemy-bullet-worm overlap changes neither lives nor the invulnerability state
(so the invulnerable state is never re-entered while active); an accepted
life loss enters the invulnerable state and schedules its expiry after
INVULNERABLE_MS_AFTER_HIT = 700 ms. -/
theorem c8_invulnerability (s s2 : GameState) (ei bi : Nat) :
    s.invulnerable = true →
    ( overlapEnemyWorm s ei = s
    ∧ (overlapEnemyBulletWorm s bi).lives = s.lives
    ∧ (overlapEnemyBulletWorm s bi).invulnerable = true
    ∧ (overlapEnemyBulletWorm s bi).pendingInvulnMs = s.pendingInvulnMs
    ∧ (s2.isGameOver = false →
        (loseLife s2).invulnerable = true
      ∧ (loseLife s2).pendingInvulnMs = some INVULNERABLE_MS_AFTER_HIT)
    ∧ INVULNERABLE_MS_AFTER_HIT = 700 ) := by
  intro h
  have heb : overlapEnemyBulletWorm s bi = enemyBulletSideDestroy s bi := by
    unfold overlapEnemyBulletWorm
    dsimp only
    rw [if_pos (by simp [h])]
  refine ⟨?_, ?_, ?_, ?_, ?_, rfl⟩
  · unfold overlapEnemyWorm
    split
    · rfl
    · split_ifs <;> simp_all
  · rw [heb, enemyBulletSideDestroy_lives]
  · rw [heb, enemyBulletSideDestroy_invulnerable]
    exact h
  · rw [heb, enemyBulletSideDestroy_pendingInvulnMs]
  · intro hgo2
    rw [loseLife_invulnerable, loseLife_pendingInvulnMs, hgo2]
    simp

def invulnEnemyW : Obj := { id := 2, x := 10, y := 10 }

def invulnW : GameState :=
  { worm := wormW, gameStarted := true, invulnerable := true
    enemies := [invulnEnemyW], enemyBullets := [{ id := 4 }] }

/-- Witness for C8 at an invulnerable state with an enemy and an enemy
bullet overlapping the worm. -/
theorem c8_invulnerability_witness :
    overlapEnemyWorm invulnW 2 = invulnW
  ∧ (overlapEnemyBulletWorm invulnW 4).lives = invulnW.lives
  ∧ (overlapEnemyBulletWorm invulnW 4).invulnerable = true
  ∧ (overlapEnemyBulletWorm invulnW 4).pendingInvulnMs
      = invulnW.pendingInvulnMs
  ∧ (emptyFieldW.isGameOver = false →
      (loseLife emptyFieldW).invulnerable = true
    ∧ (loseLife emptyFieldW).pendingInvulnMs = some INVULNERABLE_MS_AFTER_HIT)
  ∧ INVULNERABLE_MS_AFTER_HIT = 700 :=
  c8_invulnerability invulnW emptyFieldW 2 4 rfl

/-- C9: `safeDestroy` never lets an exception escape: a missing object is a
silent no-op, an already-inactive (non-worm) object is a silent no-op, an
engine-level fault during destroy is caught and logged, and on every input
the wrapper returns normally (an `Except.ok` value, never `Except.error`). -/
theorem c9_safe_destroy_no_throw (wid : Nat) (o : Obj) (obj : Option Obj) :
    safeDestroy wid none = Except.ok (none, [])
  ∧ (o.id ≠ wid → o.active = false →
      safeDestroy wid (some o) = Except.ok (some o, []))
  ∧ (o.id ≠ wid → o.active = true → o.faulty = true →
      safeDestroy wid (some o)
        = Except.ok (some o, ["safeDestroy error engine fault"]))
  ∧ (∃ v, safeDestroy wid obj = Except.ok v) := by
  refine ⟨rfl, ?_, ?_, ?_⟩
  · intro hne hia
    unfold safeDestroy
    dsimp only
    rw [if_neg hne, if_pos hia]
  · intro hne ha hf
    unfold safeDestroy engineDestroy
    dsimp only
    rw [if_neg hne, if_neg (by simp [ha]), if_pos hf]
    rfl
  · cases obj with
    | none => exact ⟨(none, []), rfl⟩
    | some o2 =>
      unfold safeDestroy
      dsimp only
      split_ifs
      · exact ⟨_, rfl⟩
      · exact ⟨_, rfl⟩
      · cases h2 : engineDestroy o2 with
        | ok o3 => exact ⟨_, rfl⟩
        | error err => exact ⟨_, rfl⟩

def inactiveW : Obj := { id := 9, active := false }

def faultyW : Obj := { id := 10, faulty := true }

/-- Witness for C9 on an inactive object and a faulty one. -/
theorem c9_safe_destroy_no_throw_witness :
    safeDestroy 0 none = Except.ok (none, [])
  ∧ safeDestroy 0 (some inactiveW) = Except.ok (some inactiveW, [])
  ∧ safeDestroy 0 (some faultyW)
      = Except.ok (some faultyW, ["safeDestroy error engine fault"])
  ∧ (∃ v, safeDestroy 0 (some faultyW) = Except.ok v) :=
  ⟨(c9_safe_destroy_no_throw 0 inactiveW (some faultyW)).1,
   (c9_safe_destroy_no_throw 0 inactiveW (some faultyW)).2.1 (by decide) rfl,
   (c9_safe_destroy_no_throw 0 faultyW (some faultyW)).2.2.1 (by decide) rfl rfl,
   (c9_safe_destroy_no_throw 0 faultyW (some faultyW)).2.2.2⟩

@[simp] theorem destroyEnemy_lives (s : GameState) (i : Nat) :
    (s.destroyEnemy i).lives = s.lives := rfl

@[simp] theorem destroyEnemy_enemies (s : GameState) (i : Nat) :
    (s.destroyEnemy i).enemies = destroyPool s.worm.id s.enemies i := rfl

/-- An enemy-worm overlap against an enemy whose `hasHit` flag is already set
is a complete no-op. -/
theorem overlapEnemyWorm_noop_of_hasHit (s : GameState) (ei : Nat) (e : Obj)
    (hfind : findIn s.enemies ei = some e) (hh : e.hasHit = true) :
    overlapEnemyWorm s ei = s := by
  unfold overlapEnemyWorm
  rw [hfind]
  dsimp only
  split_ifs <;> simp_all

/-- C5: an enemy whose `hasHit` flag is set never causes another life loss
(the overlap is a complete no-op); a first contact by an active enemy while
the player is vulnerable and the game not over marks `hasHit`, applies
exactly one life loss, and removes the enemy (when its engine destroy does
not fault it stays present but inactive with `hasHit` set); replaying the
same overlap afterwards has no further effect. -/
theorem c5_enemy_single_hit (s : GameState) (ei : Nat) (e : Obj) :
    findIn s.enemies ei = some e →
    ( (e.hasHit = true → overlapEnemyWorm s ei = s)
    ∧ (e.active = true → e.hasHit = false → s.invulnerable = false →
       s.isGameOver = false → e.id ≠ s.worm.id →
         (overlapEnemyWorm s ei).lives = max (s.lives - 1) 0
       ∧ findIn (overlapEnemyWorm s ei).enemies ei
           = some ((destroyOne s.worm.id { e with hasHit := true }).1)
       ∧ (e.faulty = false →
           findIn (overlapEnemyWorm s ei).enemies ei
             = some { e with hasHit := true, active := false })
       ∧ overlapEnemyWorm (overlapEnemyWorm s ei) ei
           = overlapEnemyWorm s ei) ) := by
  intro hfind
  constructor
  · intro hh
    exact overlapEnemyWorm_noop_of_hasHit s ei e hfind hh
  · intro ha hh hinv hgo hne
    have hfire : overlapEnemyWorm s ei
        = (loseLife { s with enemies := markHasHit s.enemies ei }).destroyEnemy ei := by
      unfold overlapEnemyWorm
      rw [hfind]
      dsimp only
      rw [if_neg (by simp [ha]), if_neg (by simp [hh]),
          if_neg (by simp [hinv, hgo])]
    have hens : (overlapEnemyWorm s ei).enemies
        = destroyPool s.worm.id (markHasHit s.enemies ei) ei := by
      rw [hfire, destroyEnemy_enemies, loseLife_worm, loseLife_enemies]
    have hfound : findIn (overlapEnemyWorm s ei).enemies ei
        = some ((destroyOne s.worm.id { e with hasHit := true }).1) := by
      rw [hens, findIn_destroyPool, findIn_markHasHit, hfind]
      rfl
    refine ⟨?_, hfound, ?_, ?_⟩
    · rw [hfire, destroyEnemy_lives, loseLife_lives]
      simp [hgo]
    · intro hfa
      rw [hfound]
      simp [destroyOne_eq, hne, ha, hfa]
    · exact overlapEnemyWorm_noop_of_hasHit _ ei _ hfound
        (by rw [destroyOne_fst_hasHit])

def hitEnemyW : Obj := { id := 3, hasHit := true }

def c5S : GameState :=
  { worm := wormW, gameStarted := true, enemies := [invulnEnemyW] }

def c5T : GameState :=
  { worm := wormW, gameStarted := true, enemies := [hitEnemyW] }

/-- Witness for C5: a fresh enemy hits once and is removed; an enemy with
`hasHit` already set leaves the state untouched. -/
theorem c5_enemy_single_hit_witness :
    ( (overlapEnemyWorm c5S 2).lives = max (c5S.lives - 1) 0
    ∧ findIn (overlapEnemyWorm c5S 2).enemies 2
        = some ((destroyOne c5S.worm.id { invulnEnemyW with hasHit := true }).1)
    ∧ findIn (overlapEnemyWorm c5S 2).enemies 2
        = some { invulnEnemyW with hasHit := true, active := false }
    ∧ overlapEnemyWorm (overlapEnemyWorm c5S 2) 2 = overlapEnemyWorm c5S 2 )
  ∧ overlapEnemyWorm c5T 3 = c5T :=
  ⟨by
    have h := (c5_enemy_single_hit c5S 2 invulnEnemyW (by decide)).2
      rfl rfl rfl rfl (by decide)
    exact ⟨h.1, h.2.1, h.2.2.1 rfl, h.2.2.2⟩,
   (c5_enemy_single_hit c5T 3 hitEnemyW (by decide)).1 rfl⟩

/-- C10: in the bullet-heart rule the heal of 28 and the heart's removal
happen whenever the heart is active, regardless of the bullet (in particular
when the bullet is already inactive); the bullet-enemy rule by contrast is a
complete no-op - no removal, no score change - unless both the bullet and
the enemy are active. -/
theorem c10_pickup_vs_enemy_activity (s : GameState) (bi hi ei : Nat)
    (hrt b e : Obj) :
    ( findIn s.hearts hi = some hrt → hrt.active = true → hrt.faulty = false →
      hrt.id ≠ s.worm.id → s.isGameOver = false →
        (overlapBulletHeart s bi hi).health
          = clamp (s.health + HEART_HEAL_AMOUNT) 0 s.maxHealth
      ∧ findIn (overlapBulletHeart s bi hi).hearts hi
          = some { hrt with active := false } )
  ∧ ( findIn s.playerBullets bi = some b → findIn s.enemies ei = some e →
      (b.active = false ∨ e.active = false) →
        overlapBulletEnemy s bi ei = s ) := by
  constructor
  · intro hfind hact hfault hne hgo
    have h1 : findIn (bulletSideDestroy s bi).hearts hi = some hrt := by
      rw [bulletSideDestroy_hearts]
      exact hfind
    have hform : overlapBulletHeart s bi hi
        = heal ((bulletSideDestroy s bi).destroyHeart hi) HEART_HEAL_AMOUNT := by
      unfold overlapBulletHeart
      dsimp only
      rw [h1]
      dsimp only
      rw [if_pos hact]
    constructor
    · rw [hform, heal_health]
      simp [GameState.destroyHeart, hgo]
    · rw [hform, heal_hearts]
      show findIn
        (destroyPool (bulletSideDestroy s bi).worm.id
          (bulletSideDestroy s bi).hearts hi) hi = _
      rw [bulletSideDestroy_worm, bulletSideDestroy_hearts,
          findIn_destroyPool, hfind]
      simp [destroyOne_eq, hne, hact, hfault]
  · intro hb he hor
    unfold overlapBulletEnemy
    rw [hb, he]
    dsimp only
    rw [if_pos (by rcases hor with h | h <;> simp [h])]

def deadBulletW : Obj := { id := 20, active := false }

def heartObjW : Obj := { id := 21, x := 30, y := 30 }

def c10S : GameState :=
  { worm := wormW, gameStarted := true
    playerBullets := [deadBulletW], hearts := [heartObjW]
    enemies := [invulnEnemyW] }

/-- Witness for C10: an inactive bullet still collects an active heart, and
the same inactive bullet on an active enemy changes nothing. -/
theorem c10_pickup_vs_enemy_activity_witness :
    ( (overlapBulletHeart c10S 20 21).health
        = clamp (c10S.health + HEART_HEAL_AMOUNT) 0 c10S.maxHealth
    ∧ findIn (overlapBulletHeart c10S 20 21).hearts 21
        = some { heartObjW with active := false } )
  ∧ overlapBulletEnemy c10S 20 2 = c10S :=
  ⟨(c10_pickup_vs_enemy_activity c10S 20 21 2 heartObjW deadBulletW invulnEnemyW).1
     (by decide) rfl rfl (by decide) rfl,
   (c10_pickup_vs_enemy_activity c10S 20 21 2 heartObjW deadBulletW invulnEnemyW).2
     (by decide) (by decide) (Or.inl rfl)⟩

end WormDefense
